import Mathlib

/-!
Shallow embedding of `crates/evm/src/executor/inspector/cheatcodes/fork.rs`,
the fork-related cheatcode handlers of foundry, together with a spec-modelled
fragment of the external collaborators they call into (the `DatabaseExt`
fork registry backend and the config's RPC-endpoint resolution, which live
outside this file's source tree).

Machine integers are modelled as `Nat`; U256 call arguments are arbitrary
naturals and the 64-bit range guard is the explicit comparison against
`2 ^ 64 - 1`, exactly as in the source. External network effects (provider
construction, `eth_getLogs`, generic JSON-RPC requests, transaction fetching
for transaction-anchored forks) are parameters of a `World` oracle, and every
operation that can reach the network also returns the list of requests it
issued, so that "no request was issued" is a provable statement. A Rust
`.expect(..)` panic is modelled as the `Outcome.fatal` result, distinct from
a returned typed error (`Outcome.err`).
-/

namespace ForkCheat

abbrev URL := String

/-- Error taxonomy. `selectForkDuringBroadcast` is the typed
`Error::SelectForkDuringBroadcast` of the source; the others name the
`fmt_err!` sites of fork.rs (`noActiveFork` = "No active fork",
`noActiveForkUrl` = "No active fork url found", `rangeTooLarge` = "Blocks in
block range must be less than 2^64 - 1", `tooManyTopics` = "Topics array must
be less than 4 elements", `remoteRpcError` = the mapped transport failures,
`serializationError` = the propagated serde_json parse failure,
`resultParseError` = "Failed to parse result") and the errors propagated from
collaborators (`configError` from rpc-url resolution, `unknownForkId` from the
backend registry, `providerBuildError` from `ProviderBuilder::build`). -/
inductive Error where
  | selectForkDuringBroadcast
  | noActiveFork
  | noActiveForkUrl
  | rangeTooLarge
  | tooManyTopics
  | unknownForkId
  | configError (a : String)
  | providerBuildError
  | remoteRpcError
  | serializationError
  | resultParseError
  deriving Repr, DecidableEq

/-- Shallow model of `alloy DynSolValue`, restricted to the constructors
fork.rs builds. -/
inductive DynValue where
  | address (a : Nat)
  | uint (v : Nat) (bits : Nat)
  | fixedBytes (v : Nat) (n : Nat)
  | boolV (b : Bool)
  | bytes (bs : List Nat)
  | strV (s : String)
  | array (xs : List DynValue)
  | fixedArray (xs : List DynValue)
  | tuple (xs : List DynValue)
  deriving Repr

/-- The `Bytes` value a cheatcode handler returns: either `Bytes::new()`
(`empty`) or `v.encode_single().into()` for a `DynSolValue` `v` (`single v`;
the ABI byte serialization itself is external alloy code, so the encoded
payload is kept as the structured value). -/
inductive Encoded where
  | empty
  | single (v : DynValue)
  deriving Repr

/-- Result of running a handler: a returned value, a returned typed error, or
a Rust panic (`.expect` / `.unwrap` aborting the process with a message).
A panic is NOT a returned error; the distinction is the point of `fatal`. -/
inductive Outcome (α : Type) where
  | ok (a : α)
  | err (e : Error)
  | fatal (msg : String)
  deriving Repr

/-- Discriminator: did the run end in a returned typed error (as opposed to
a returned value or a panic)? -/
def Outcome.isTypedErr {α : Type} : Outcome α → Bool
  | .err _ => true
  | _ => false

/-- Opaque model of a structured JSON value (`serde_json::Value`); fork.rs
only moves these between collaborators, so only identity matters. -/
inductive Json where
  | mk (raw : String)
  deriving Repr, DecidableEq

/-- One log entry as returned by the provider for `eth_getLogs`
(`ethers::types::Log`): address, topics and data are always present, the
remaining fields are `Option` in the wire type and may be absent. Hashes and
words are modelled as `Nat`. -/
structure LogEntry where
  address : Nat
  topics : List Nat
  data : List Nat
  block_number : Option Nat
  transaction_hash : Option Nat
  transaction_index : Option Nat
  block_hash : Option Nat
  log_index : Option Nat
  removed : Option Bool
  deriving Repr, DecidableEq

/-- The filter fork.rs builds for `eth_getLogs`: address, block bounds
(already guarded to fit 64 bits, so `as_u64` is the identity here), and the
at-most-4 topic values installed by the `topic0..topic3` loop. -/
structure LogFilter where
  address : Nat
  from_block : Nat
  to_block : Nat
  topics : List Nat
  deriving Repr, DecidableEq

/-- A network request issued by a handler, recorded for the trace. -/
inductive Request where
  | getLogs (url : URL) (f : LogFilter)
  | rpc (url : URL) (method : String) (params : Json)
  deriving Repr, DecidableEq

/-- Oracle for the external collaborators: provider construction, the two
network calls, transaction fetch/replay used by transaction-anchored fork
creation, serde_json parsing of the passthrough params string, and the
boundary translation `value_to_token` of the passthrough result. -/
structure World where
  buildOk : URL → Bool
  getLogs : URL → LogFilter → Except Unit (List LogEntry)
  request : URL → String → Json → Except Unit Json
  txReplayOk : URL → Nat → Bool
  parseJson : String → Option Json
  valueToToken : Json → Except Unit DynValue

/-- The slice of `EvmOpts` that `create_fork_request` touches. -/
structure EvmOpts where
  fork_block_number : Option Nat
  deriving Repr, DecidableEq

/-- The slice of the cheatcode `Config` that fork.rs reads: the configured
RPC endpoints (alias paired with its resolution outcome: a URL, or a
resolution failure such as a missing environment variable), the per-endpoint
storage-caching policy, and the EVM options cloned into fork requests. -/
structure Config where
  rpc_endpoints : List (String × Except Unit URL)
  storage_caching_for : URL → Bool
  evm_opts : EvmOpts

/-- Modelled from the spec: `Config::get_rpc_url` lives in the config crate,
outside this source tree. Per the spec, fork creation "resolves an alias to a
URL" and "fails with ConfigError if the alias/url cannot be resolved"; so an
alias configured with a successful resolution yields its URL, and anything
else yields `configError`. -/
def Config.get_rpc_url (cfg : Config) (urlOrAlias : String) : Except Error URL :=
  match cfg.rpc_endpoints.lookup urlOrAlias with
  | some (.ok url) => .ok url
  | some (.error _) => .error (.configError urlOrAlias)
  | none => .error (.configError urlOrAlias)

/-- The slice of the `Cheatcodes` inspector state that fork.rs touches:
`broadcast` presence (`Option` of an opaque broadcast record), the
`corrected_nonce` flag, and the config. -/
structure Cheatcodes where
  broadcast : Option Unit
  corrected_nonce : Bool
  config : Config

/-- The fork-creation request produced by `create_fork_request` (`CreateFork`
in the source; the cloned EVM environment is opaque to every claim and is
omitted). -/
structure CreateFork where
  enable_caching : Bool
  url : URL
  evm_opts : EvmOpts
  deriving Repr, DecidableEq

/-- Modelled from the spec: one registered fork of the `DatabaseExt` backend
(id, endpoint, caching flag, requested anchor), which lives outside this
source tree. -/
structure Fork where
  id : Nat
  url : URL
  enable_caching : Bool
  fork_block_number : Option Nat
  deriving Repr, DecidableEq

/-- Modelled from the spec: the fork registry state of the `DatabaseExt`
backend (outside this source tree) — it "owns all forks by id, tracks the
active fork"; ids are "monotonically increasing, never reused". -/
structure Backend where
  forks : List Fork
  next_id : Nat
  active : Option Nat
  deriving Repr, DecidableEq

/-- Modelled from the spec: a fresh backend has no forks and no active fork
("before any selection, `active_fork_id()` is empty"). -/
def Backend.init : Backend := ⟨[], 0, none⟩

/-- Modelled from the spec: `active_fork_id() -> Option<ForkId>`. -/
def Backend.active_fork_id (b : Backend) : Option Nat := b.active

/-- Modelled from the spec: `active_fork_url() -> Option<URL>`, the endpoint
of the active fork, used by the auxiliary passthrough operations. -/
def Backend.active_fork_url (b : Backend) : Option URL :=
  b.active.bind fun id => (b.forks.find? fun f => f.id = id).map Fork.url

/-- Modelled from the spec: `create_fork` "allocates a new unique id, stores
an empty override layer"; it does not touch the active pointer. -/
def Backend.create_fork (b : Backend) (req : CreateFork) : Nat × Backend :=
  (b.next_id,
   { b with
     forks := b.forks ++ [⟨b.next_id, req.url, req.enable_caching,
                           req.evm_opts.fork_block_number⟩]
     next_id := b.next_id + 1 })

/-- Modelled from the spec: `select_fork(id)` "fails with UnknownForkId if
absent; otherwise sets the active pointer". -/
def Backend.select_fork (b : Backend) (id : Nat) : Except Error Backend :=
  if b.forks.any fun f => f.id = id then .ok { b with active := some id }
  else .error .unknownForkId

/-- Modelled from the spec: `create_select_fork` is the "atomic composition
of create + select". -/
def Backend.create_select_fork (b : Backend) (req : CreateFork) : Nat × Backend :=
  let p := b.create_fork req
  (p.1, { p.2 with active := some p.1 })

/-- Modelled from the spec: `create_fork_at_transaction` "fails with
RemoteRpcError if the transaction or block cannot be fetched, or if replay of
a preceding transaction fails" (the oracle's `txReplayOk` decides this);
otherwise it allocates a fork like `create_fork`. -/
def Backend.create_fork_at_transaction (w : World) (b : Backend)
    (req : CreateFork) (tx : Nat) : Except Error (Nat × Backend) :=
  if w.txReplayOk req.url tx then .ok (b.create_fork req)
  else .error .remoteRpcError

/-- Modelled from the spec: the selecting variant of
`create_fork_at_transaction`. -/
def Backend.create_select_fork_at_transaction (w : World) (b : Backend)
    (req : CreateFork) (tx : Nat) : Except Error (Nat × Backend) :=
  if w.txReplayOk req.url tx then .ok (b.create_select_fork req)
  else .error .remoteRpcError

/-- `create_fork_request` from fork.rs: resolve the alias/url, clone the EVM
options with the requested block installed as `fork_block_number`, and look
up the caching policy for the resolved URL. -/
def create_fork_request (state : Cheatcodes) (url_or_alias : String)
    (block : Option Nat) : Except Error CreateFork :=
  match state.config.get_rpc_url url_or_alias with
  | .error e => .error e
  | .ok url =>
      .ok { enable_caching := state.config.storage_caching_for url
            url := url
            evm_opts := { state.config.evm_opts with fork_block_number := block } }

/-- `select_fork` from fork.rs: reject during broadcast, set
`corrected_nonce`, delegate to the backend, return empty bytes. -/
def select_fork (s : Cheatcodes) (b : Backend) (fork_id : Nat) :
    Except Error Encoded × Cheatcodes × Backend :=
  if s.broadcast.isSome then (.error .selectForkDuringBroadcast, s, b)
  else
    let s1 := { s with corrected_nonce := true }
    match b.select_fork fork_id with
    | .error e => (.error e, s1, b)
    | .ok b1 => (.ok .empty, s1, b1)

/-- `create_select_fork` from fork.rs: reject during broadcast, set
`corrected_nonce`, build the request, delegate to the backend, return the new
id as a 256-bit word. -/
def create_select_fork (s : Cheatcodes) (b : Backend) (url_or_alias : String)
    (block : Option Nat) : Except Error Encoded × Cheatcodes × Backend :=
  if s.broadcast.isSome then (.error .selectForkDuringBroadcast, s, b)
  else
    let s1 := { s with corrected_nonce := true }
    match create_fork_request s1 url_or_alias block with
    | .error e => (.error e, s1, b)
    | .ok req =>
        let p := b.create_select_fork req
        (.ok (.single (.uint p.1 256)), s1, p.2)

/-- `create_fork` from fork.rs: no broadcast check; build the request,
delegate to the backend, return the new id. The inspector state is read-only
here (`&Cheatcodes` in the source). -/
def create_fork (s : Cheatcodes) (b : Backend) (url_or_alias : String)
    (block : Option Nat) : Except Error Encoded × Cheatcodes × Backend :=
  match create_fork_request s url_or_alias block with
  | .error e => (.error e, s, b)
  | .ok req =>
      let p := b.create_fork req
      (.ok (.single (.uint p.1 256)), s, p.2)

/-- `create_select_fork_at_transaction` from fork.rs: reject during
broadcast, set `corrected_nonce`, build the request with no block, delegate
to the backend. -/
def create_select_fork_at_transaction (w : World) (s : Cheatcodes)
    (b : Backend) (url_or_alias : String) (tx : Nat) :
    Except Error Encoded × Cheatcodes × Backend :=
  if s.broadcast.isSome then (.error .selectForkDuringBroadcast, s, b)
  else
    let s1 := { s with corrected_nonce := true }
    match create_fork_request s1 url_or_alias none with
    | .error e => (.error e, s1, b)
    | .ok req =>
        match Backend.create_select_fork_at_transaction w b req tx with
        | .error e => (.error e, s1, b)
        | .ok p => (.ok (.single (.uint p.1 256)), s1, p.2)

/-- `create_fork_at_transaction` from fork.rs: no broadcast check; build the
request with no block, delegate to the backend. -/
def create_fork_at_transaction (w : World) (s : Cheatcodes) (b : Backend)
    (url_or_alias : String) (tx : Nat) :
    Except Error Encoded × Cheatcodes × Backend :=
  match create_fork_request s url_or_alias none with
  | .error e => (.error e, s, b)
  | .ok req =>
      match Backend.create_fork_at_transaction w b req tx with
      | .error e => (.error e, s, b)
      | .ok p => (.ok (.single (.uint p.1 256)), s, p.2)

/-- The `HEVMCalls::ActiveFork` arm of `apply`: the active fork id as a
256-bit word, or the "No active fork" error. -/
def activeFork (b : Backend) : Except Error Encoded :=
  match b.active_fork_id with
  | some id => .ok (.single (.uint id 256))
  | none => .error .noActiveFork

/-- The arguments of the `eth_getLogs` cheatcode: two U256 block bounds, an
address, and a dynamic array of 32-byte topic values. -/
structure EthGetLogsCall where
  fromBlock : Nat
  toBlock : Nat
  address : Nat
  topics : List Nat
  deriving Repr, DecidableEq

def U64_MAX : Nat := 2 ^ 64 - 1

/-- The filter built by `eth_getlogs`: `Filter::new().address(..)
.from_block(..).to_block(..)` followed by the enumerate loop that installs
`topic0..topic3` in order. The bounds are already guarded to 64 bits when
this runs, so `as_u64` is the identity. -/
def buildFilter (inner : EthGetLogsCall) : LogFilter :=
  { address := inner.address
    from_block := inner.fromBlock
    to_block := inner.toBlock
    topics := inner.topics }

/-- Encoding of one provider log entry into the returned tuple, with the
source's `.expect(..)` on each optional field modelled as `fatal` carrying
the panic message; the fields are forced in the order the tuple literal
evaluates them. -/
def encodeLogEntry (entry : LogEntry) : Outcome DynValue :=
  match entry.block_number with
  | none => .fatal "eth_getLogs response should include block_number field"
  | some bn =>
  match entry.transaction_hash with
  | none => .fatal "eth_getLogs response should include transaction_hash field"
  | some th =>
  match entry.transaction_index with
  | none => .fatal "eth_getLogs response should include transaction_index field"
  | some ti =>
  match entry.block_hash with
  | none => .fatal "eth_getLogs response should include block_hash field"
  | some bh =>
  match entry.log_index with
  | none => .fatal "eth_getLogs response should include log_index field"
  | some li =>
  match entry.removed with
  | none => .fatal "eth_getLogs response should include removed field"
  | some rm =>
      .ok (.tuple
        [.address entry.address,
         .array (entry.topics.map fun h => .fixedBytes h 32),
         .bytes entry.data,
         .uint bn 32,
         .fixedBytes th 32,
         .uint ti 32,
         .fixedBytes bh 32,
         .uint li 32,
         .boolV rm])

/-- `logs.iter().map(..).collect()` over `encodeLogEntry`: entries are
encoded in order and the first panic aborts the rest. -/
def encodeLogs : List LogEntry → Outcome (List DynValue)
  | [] => .ok []
  | e :: rest =>
      match encodeLogEntry e with
      | .fatal m => .fatal m
      | .err er => .err er
      | .ok v =>
          match encodeLogs rest with
          | .fatal m => .fatal m
          | .err er => .err er
          | .ok vs => .ok (v :: vs)

/-- `eth_getlogs` from fork.rs: active-fork-url check, 64-bit range check on
both bounds, topics-length check, provider construction, one `get_logs`
request, then either the encoded empty array, or the encoded entries (with a
panic on any absent optional field). The second component is the trace of
network requests issued. -/
def eth_getlogs (w : World) (b : Backend) (inner : EthGetLogsCall) :
    Outcome Encoded × List Request :=
  match b.active_fork_url with
  | none => (.err .noActiveForkUrl, [])
  | some url =>
      if inner.fromBlock > U64_MAX ∨ inner.toBlock > U64_MAX then
        (.err .rangeTooLarge, [])
      else if inner.topics.length > 4 then
        (.err .tooManyTopics, [])
      else if w.buildOk url = false then
        (.err .providerBuildError, [])
      else
        let filter := buildFilter inner
        match w.getLogs url filter with
        | .error _ => (.err .remoteRpcError, [.getLogs url filter])
        | .ok logs =>
            if logs.isEmpty then
              (.ok (.single (.array [])), [.getLogs url filter])
            else
              match encodeLogs logs with
              | .fatal m => (.fatal m, [.getLogs url filter])
              | .err er => (.err er, [.getLogs url filter])
              | .ok vs =>
                  (.ok (.single (.array vs)), [.getLogs url filter])

/-- The arguments of the `rpc` cheatcode: a method name and a params string
expected to hold JSON. -/
structure RpcCall where
  method : String
  params : String
  deriving Repr, DecidableEq

/-- `rpc` from fork.rs: active-fork-url check, provider construction,
`serde_json::from_str` on the params string (failure propagates as the
serialization error before any request), one `provider.request(method,
params_json)` call, then the boundary translation of the result. The second
component is the trace of network requests issued. -/
def rpc (w : World) (b : Backend) (inner : RpcCall) :
    Outcome Encoded × List Request :=
  match b.active_fork_url with
  | none => (.err .noActiveForkUrl, [])
  | some url =>
      if w.buildOk url = false then (.err .providerBuildError, [])
      else
        match w.parseJson inner.params with
        | none => (.err .serializationError, [])
        | some params_json =>
            match w.request url inner.method params_json with
            | .error _ => (.err .remoteRpcError, [.rpc url inner.method params_json])
            | .ok result =>
                match w.valueToToken result with
                | .error _ => (.err .resultParseError, [.rpc url inner.method params_json])
                | .ok tok => (.ok (.single tok), [.rpc url inner.method params_json])

/-- The loop shared by the `RpcUrls` and `RpcUrlStructs` arms of `apply`:
resolve each configured alias in order, returning the first failure
immediately (so no partial list escapes), else the list of (alias, url)
pairs. -/
def collectRpcUrls (cfg : Config) : List String → Except Error (List (String × String))
  | [] => .ok []
  | a :: rest =>
      match cfg.get_rpc_url a with
      | .error e => .error e
      | .ok url =>
          match collectRpcUrls cfg rest with
          | .error e => .error e
          | .ok tail => .ok ((a, url) :: tail)

/-- The `HEVMCalls::RpcUrls` arm of `apply`: all configured aliases resolved,
encoded as an array of 2-element fixed arrays of strings. -/
def rpcUrls (cfg : Config) : Except Error Encoded :=
  match collectRpcUrls cfg (cfg.rpc_endpoints.map Prod.fst) with
  | .error e => .error e
  | .ok urls =>
      .ok (.single (.array (urls.map fun u => .fixedArray [.strV u.1, .strV u.2])))

/-- The `HEVMCalls::RpcUrlStructs` arm of `apply`: same loop, encoded as an
array of (name, url) tuples. -/
def rpcUrlStructs (cfg : Config) : Except Error Encoded :=
  match collectRpcUrls cfg (cfg.rpc_endpoints.map Prod.fst) with
  | .error e => .error e
  | .ok urls =>
      .ok (.single (.array (urls.map fun u => .tuple [.strV u.1, .strV u.2])))

/-! ## Concrete fixtures used by witnesses and counterexamples -/

/-- A config with two resolvable endpoints. -/
def cfg0 : Config :=
  { rpc_endpoints := [("mainnet", .ok "https://eth.example"),
                      ("optimism", .ok "https://op.example")]
    storage_caching_for := fun _ => true
    evm_opts := { fork_block_number := none } }

/-- A config whose second endpoint fails to resolve. -/
def cfgBad : Config :=
  { rpc_endpoints := [("mainnet", .ok "https://eth.example"),
                      ("broken", .error ())]
    storage_caching_for := fun _ => true
    evm_opts := { fork_block_number := none } }

/-- Inspector state outside broadcast mode. -/
def s0 : Cheatcodes := { broadcast := none, corrected_nonce := false, config := cfg0 }

/-- Inspector state with broadcast mode active. -/
def sBroadcast : Cheatcodes := { broadcast := some (), corrected_nonce := false, config := cfg0 }

/-- Inspector state (no broadcast) over the failing config. -/
def sBad : Cheatcodes := { broadcast := none, corrected_nonce := false, config := cfgBad }

/-- A backend with one registered fork that is active. -/
def bOne : Backend :=
  { forks := [⟨0, "https://eth.example", true, none⟩], next_id := 1, active := some 0 }

/-- A backend with one registered fork and no active fork. -/
def bNoActive : Backend :=
  { forks := [⟨0, "https://eth.example", true, none⟩], next_id := 1, active := none }

/-- A benign oracle: provider builds succeed, `eth_getLogs` matches nothing,
passthrough requests answer, replay succeeds, and only the literal params
string "[]" parses as JSON. -/
def wOk : World :=
  { buildOk := fun _ => true
    getLogs := fun _ _ => .ok []
    request := fun _ _ _ => .ok (.mk "0x1")
    txReplayOk := fun _ _ => true
    parseJson := fun s => if s = "[]" then some (.mk "[]") else none
    valueToToken := fun _ => .ok (.strV "tok") }

/-- An oracle whose passthrough transport fails. -/
def wErr : World := { wOk with request := fun _ _ _ => .error () }

/-- A provider log entry lacking its `block_number` field. -/
def badLog : LogEntry :=
  { address := 1, topics := [2], data := [3], block_number := none
    transaction_hash := some 4, transaction_index := some 5
    block_hash := some 6, log_index := some 7, removed := some true }

/-- An oracle whose `eth_getLogs` response is the single defective entry. -/
def wBadLog : World := { wOk with getLogs := fun _ _ => .ok [badLog] }

/-- A small in-range `eth_getLogs` call with no topics. -/
def call0 : EthGetLogsCall := { fromBlock := 0, toBlock := 10, address := 5, topics := [] }

/-- An `eth_getLogs` call with five topics AND an out-of-range `fromBlock`. -/
def call5 : EthGetLogsCall :=
  { fromBlock := 2 ^ 64, toBlock := 10, address := 5, topics := [1, 2, 3, 4, 5] }

/-- An `eth_getLogs` call with five topics and in-range bounds. -/
def call5in : EthGetLogsCall :=
  { fromBlock := 0, toBlock := 10, address := 5, topics := [1, 2, 3, 4, 5] }

/-- A log entry is defective when any of the six optional wire fields that the
handler force-unwraps is absent. -/
def LogEntry.missingField (e : LogEntry) : Prop :=
  e.block_number = none ∨ e.transaction_hash = none ∨ e.transaction_index = none ∨
  e.block_hash = none ∨ e.log_index = none ∨ e.removed = none

/-! ## Claims -/

/-- C1: while broadcast mode is active, `selectFork`, `createSelectFork` and
`createSelectForkAtTransaction` all fail with `SelectForkDuringBroadcast`,
and both the inspector state and the backend registry (hence the active fork)
are returned unchanged — the error precedes any fork creation or selection. -/
theorem select_during_broadcast_rejected (s : Cheatcodes) (b : Backend)
    (h : s.broadcast.isSome = true) :
    (∀ id, select_fork s b id = (.error .selectForkDuringBroadcast, s, b)) ∧
    (∀ u blk, create_select_fork s b u blk = (.error .selectForkDuringBroadcast, s, b)) ∧
    (∀ w u tx, create_select_fork_at_transaction w s b u tx =
        (.error .selectForkDuringBroadcast, s, b)) := by
  refine ⟨fun id => ?_, fun u blk => ?_, fun w u tx => ?_⟩ <;>
    simp [select_fork, create_select_fork, create_select_fork_at_transaction, h]

/-- C1 witness: the rejection at a concrete broadcast state and backend. -/
theorem select_during_broadcast_rejected_witness :
    sBroadcast.broadcast.isSome = true ∧
    select_fork sBroadcast bOne 0 = (.error .selectForkDuringBroadcast, sBroadcast, bOne) :=
  ⟨rfl, (select_during_broadcast_rejected sBroadcast bOne rfl).1 0⟩

/-- C4: a successful `select_fork id` leaves `active_fork_id` at `some id`;
the initial backend has no active fork, and when `active_fork_id` is empty
the `activeFork` cheatcode fails with `noActiveFork`. -/
theorem active_fork_tracks_selection :
    (∀ s b id s' b' r, select_fork s b id = (.ok r, s', b') →
        b'.active_fork_id = some id) ∧
    Backend.init.active_fork_id = none ∧
    (∀ b : Backend, b.active_fork_id = none → activeFork b = .error .noActiveFork) := by
  refine ⟨?_, rfl, ?_⟩
  · intro s b id s' b' r h
    unfold select_fork at h
    split at h
    · simp at h
    · cases hsel : b.select_fork id with
      | error e => rw [hsel] at h; simp at h
      | ok b1 =>
          rw [hsel] at h
          simp only [Prod.mk.injEq] at h
          obtain ⟨-, -, hb'⟩ := h
          subst hb'
          unfold Backend.select_fork at hsel
          split at hsel
          · simp only [Except.ok.injEq] at hsel
            rw [← hsel]
            rfl
          · simp at hsel
  · intro b hb
    simp [activeFork, hb]

/-- C4 witness: selecting fork 0 on a concrete backend makes it active, and
the fresh backend reports `noActiveFork`. -/
theorem active_fork_tracks_selection_witness :
    ({ bNoActive with active := some 0 } : Backend).active_fork_id = some 0 ∧
    activeFork Backend.init = .error .noActiveFork :=
  ⟨active_fork_tracks_selection.1 s0 bNoActive 0
      { s0 with corrected_nonce := true } _ .empty rfl,
   active_fork_tracks_selection.2.2 Backend.init rfl⟩

/-- C5: when the endpoint alias/url does not resolve, `createFork` (with or
without a block) and `createForkAtTransaction` fail with the config error and
return the inspector state and the backend registry unchanged — no fork is
created. -/
theorem create_fork_config_error (s : Cheatcodes) (b : Backend) (u : String)
    (h : s.config.get_rpc_url u = .error (.configError u)) :
    (∀ blk, create_fork s b u blk = (.error (.configError u), s, b)) ∧
    (∀ w tx, create_fork_at_transaction w s b u tx = (.error (.configError u), s, b)) := by
  constructor <;> intros <;>
    simp [create_fork, create_fork_at_transaction, create_fork_request, h]

/-- C5 witness: the unresolvable alias "broken" of the concrete config. -/
theorem create_fork_config_error_witness :
    sBad.config.get_rpc_url "broken" = .error (.configError "broken") ∧
    create_fork sBad bOne "broken" none = (.error (.configError "broken"), sBad, bOne) :=
  ⟨rfl, (create_fork_config_error sBad bOne "broken" rfl).1 none⟩

/-- C8: the broadcast restriction is exactly on the selecting operations:
during broadcast, `createFork` and `createForkAtTransaction` still succeed
(given resolvable endpoint and successful replay) and leave the active fork
unchanged, while `selectFork`, `createSelectFork` and
`createSelectForkAtTransaction` are rejected. -/
theorem broadcast_blocks_only_selecting_ops (w : World) (s : Cheatcodes)
    (b : Backend) (u : String) (url : URL) (tx : Nat)
    (hb : s.broadcast.isSome = true)
    (hres : s.config.get_rpc_url u = .ok url)
    (htx : w.txReplayOk url tx = true) :
    (∀ blk, ∃ r b', create_fork s b u blk = (.ok r, s, b') ∧ b'.active = b.active) ∧
    (∃ r b', create_fork_at_transaction w s b u tx = (.ok r, s, b') ∧
        b'.active = b.active) ∧
    (∀ id, (select_fork s b id).1 = .error .selectForkDuringBroadcast) ∧
    (∀ blk, (create_select_fork s b u blk).1 = .error .selectForkDuringBroadcast) ∧
    ((create_select_fork_at_transaction w s b u tx).1 =
        .error .selectForkDuringBroadcast) := by
  refine ⟨fun blk => ?_, ?_, fun id => ?_, fun blk => ?_, ?_⟩
  · refine ⟨.single (.uint b.next_id 256),
      { b with
        forks := b.forks ++ [⟨b.next_id, url, s.config.storage_caching_for url, blk⟩]
        next_id := b.next_id + 1 }, ?_, rfl⟩
    simp [create_fork, create_fork_request, hres, Backend.create_fork]
  · refine ⟨.single (.uint b.next_id 256),
      { b with
        forks := b.forks ++ [⟨b.next_id, url, s.config.storage_caching_for url, none⟩]
        next_id := b.next_id + 1 }, ?_, rfl⟩
    simp [create_fork_at_transaction, create_fork_request, hres,
      Backend.create_fork_at_transaction, htx, Backend.create_fork]
  · simp [select_fork, hb]
  · simp [create_select_fork, hb]
  · simp [create_select_fork_at_transaction, hb]

/-- C8 witness: during broadcast, `createFork` succeeds on the concrete
config while `selectFork` is rejected. -/
theorem broadcast_blocks_only_selecting_ops_witness :
    (∃ r b', create_fork sBroadcast bOne "mainnet" none = (.ok r, sBroadcast, b') ∧
        b'.active = bOne.active) ∧
    (select_fork sBroadcast bOne 0).1 = .error .selectForkDuringBroadcast :=
  ⟨(broadcast_blocks_only_selecting_ops wOk sBroadcast bOne "mainnet"
      "https://eth.example" 0 rfl rfl rfl).1 none,
   (broadcast_blocks_only_selecting_ops wOk sBroadcast bOne "mainnet"
      "https://eth.example" 0 rfl rfl rfl).2.2.1 0⟩

/-- C9: with no active fork url, both `eth_getLogs` and `rpc` fail
immediately and issue no network request at all (empty request trace), so
they never fall back to a default endpoint. -/
theorem no_active_fork_no_request (w : World) (b : Backend)
    (h : b.active_fork_url = none) :
    (∀ inner, eth_getlogs w b inner = (.err .noActiveForkUrl, [])) ∧
    (∀ inner, rpc w b inner = (.err .noActiveForkUrl, [])) := by
  constructor <;> intro inner <;> simp [eth_getlogs, rpc, h]

/-- C9 witness: the fresh backend has no active fork url; both operations
fail with an empty request trace. -/
theorem no_active_fork_no_request_witness :
    eth_getlogs wOk Backend.init call0 = (.err .noActiveForkUrl, []) ∧
    rpc wOk Backend.init { method := "eth_chainId", params := "[]" } =
      (.err .noActiveForkUrl, []) :=
  ⟨(no_active_fork_no_request wOk Backend.init rfl).1 call0,
   (no_active_fork_no_request wOk Backend.init rfl).2
      { method := "eth_chainId", params := "[]" }⟩

/-- C7: when the provider answers `eth_getLogs` with no matching logs, the
cheatcode succeeds with the encoding of an empty array (not an absent value,
not an error), after exactly the one network request. -/
theorem get_logs_empty_result (w : World) (b : Backend) (inner : EthGetLogsCall)
    (url : URL)
    (hurl : b.active_fork_url = some url)
    (hfrom : inner.fromBlock ≤ U64_MAX) (hto : inner.toBlock ≤ U64_MAX)
    (htopics : inner.topics.length ≤ 4)
    (hbuild : w.buildOk url = true)
    (hlogs : w.getLogs url (buildFilter inner) = .ok []) :
    eth_getlogs w b inner =
      (.ok (.single (.array [])), [.getLogs url (buildFilter inner)]) := by
  have h1 : ¬(inner.fromBlock > U64_MAX ∨ inner.toBlock > U64_MAX) := by
    push_neg
    exact ⟨hfrom, hto⟩
  have h2 : ¬(inner.topics.length > 4) := Nat.not_lt.mpr htopics
  simp [eth_getlogs, hurl, h1, h2, hbuild, hlogs]

/-- C7 witness: the benign oracle matches nothing on a concrete in-range
call. -/
theorem get_logs_empty_result_witness :
    eth_getlogs wOk bOne call0 =
      (.ok (.single (.array [])),
       [.getLogs "https://eth.example" (buildFilter call0)]) :=
  get_logs_empty_result wOk bOne call0 "https://eth.example" rfl
    (by simp [call0, U64_MAX]) (by simp [call0, U64_MAX]) (by simp [call0]) rfl rfl

/-- C6: with an active fork whose provider builds, a params string that does
not parse as JSON makes `rpc` fail with the serialization error and an empty
request trace (nothing issued); a parsing params string leads to exactly one
request, against the active fork's url with the given method and parsed
params, and a transport failure of that request is returned as the remote RPC
error. -/
theorem rpc_passthrough_contract (w : World) (b : Backend) (inner : RpcCall)
    (url : URL)
    (hurl : b.active_fork_url = some url) (hbuild : w.buildOk url = true) :
    (w.parseJson inner.params = none →
       rpc w b inner = (.err .serializationError, [])) ∧
    (∀ j, w.parseJson inner.params = some j →
       (rpc w b inner).2 = [.rpc url inner.method j] ∧
       (∀ e, w.request url inner.method j = .error e →
          (rpc w b inner).1 = .err .remoteRpcError)) := by
  constructor
  · intro hp
    simp [rpc, hurl, hbuild, hp]
  · intro j hp
    refine ⟨?_, fun e he => ?_⟩
    · cases hreq : w.request url inner.method j with
      | error x => simp [rpc, hurl, hbuild, hp, hreq]
      | ok v =>
          cases hv : w.valueToToken v with
          | error x => simp [rpc, hurl, hbuild, hp, hreq, hv]
          | ok tok => simp [rpc, hurl, hbuild, hp, hreq, hv]
    · simp [rpc, hurl, hbuild, hp, he]

/-- C6 witness: a malformed params string fails with the serialization error
and no request; a well-formed one over the failing transport yields the
remote RPC error. -/
theorem rpc_passthrough_contract_witness :
    rpc wOk bOne { method := "eth_chainId", params := "nope" } =
      (.err .serializationError, []) ∧
    (rpc wErr bOne { method := "eth_chainId", params := "[]" }).1 =
      .err .remoteRpcError :=
  ⟨(rpc_passthrough_contract wOk bOne { method := "eth_chainId", params := "nope" }
      "https://eth.example" rfl rfl).1 rfl,
   ((rpc_passthrough_contract wErr bOne { method := "eth_chainId", params := "[]" }
      "https://eth.example" rfl rfl).2 (.mk "[]") rfl).2 () rfl⟩

/-- C3 counterexample: with an active fork, a call carrying five topics AND
an out-of-range `fromBlock` fails with the range error, not the topics error
— the claim "more than 4 topics fails with TooManyTopics" is false at this
input because the range check runs first. -/
theorem get_logs_five_topics_not_too_many :
    (eth_getlogs wOk bOne call5).1 = .err .rangeTooLarge ∧
    (eth_getlogs wOk bOne call5).1 ≠ .err .tooManyTopics := by
  constructor
  · rfl
  · intro hcontra
    rw [show (eth_getlogs wOk bOne call5).1 = .err .rangeTooLarge from rfl] at hcontra
    simp at hcontra

/-- C3 amended: given an active fork, a block bound exceeding 2^64−1 fails
with the range error; with bounds in range, more than 4 topics fails with the
topics error; in both cases the request trace is empty, so the failure
precedes any network request and is independent of whether logs match. -/
theorem get_logs_validation_precedence (w : World) (b : Backend)
    (inner : EthGetLogsCall) (url : URL)
    (hurl : b.active_fork_url = some url) :
    (inner.fromBlock > U64_MAX ∨ inner.toBlock > U64_MAX →
       eth_getlogs w b inner = (.err .rangeTooLarge, [])) ∧
    (inner.fromBlock ≤ U64_MAX → inner.toBlock ≤ U64_MAX →
       inner.topics.length > 4 →
       eth_getlogs w b inner = (.err .tooManyTopics, [])) := by
  constructor
  · intro hrange
    simp [eth_getlogs, hurl, hrange]
  · intro hfrom hto htopics
    have h1 : ¬(inner.fromBlock > U64_MAX ∨ inner.toBlock > U64_MAX) := by
      push_neg
      exact ⟨hfrom, hto⟩
    simp [eth_getlogs, hurl, h1, htopics]

/-- C3 amended witness: the range rejection on `call5` and the topics
rejection on the in-range five-topic call. -/
theorem get_logs_validation_precedence_witness :
    eth_getlogs wOk bOne call5 = (.err .rangeTooLarge, []) ∧
    eth_getlogs wOk bOne call5in = (.err .tooManyTopics, []) :=
  ⟨(get_logs_validation_precedence wOk bOne call5 "https://eth.example" rfl).1
      (Or.inl (by simp [call5, U64_MAX])),
   (get_logs_validation_precedence wOk bOne call5in "https://eth.example" rfl).2
      (by simp [call5in, U64_MAX]) (by simp [call5in, U64_MAX]) (by simp [call5in])⟩

/-- Encoding a log entry never produces a returned typed error: the only
failure mode of the per-entry encoding is the panic of a forced absent
field. -/
theorem encodeLogEntry_ne_err (e : LogEntry) (er : Error) :
    encodeLogEntry e ≠ .err er := by
  rcases e with ⟨a, t, d, bn, th, ti, bh, li, rm⟩
  cases bn <;> cases th <;> cases ti <;> cases bh <;> cases li <;> cases rm <;>
    simp [encodeLogEntry]

/-- A defective entry makes the per-entry encoding panic. -/
theorem encodeLogEntry_missing_fatal (e : LogEntry) (h : e.missingField) :
    ∃ m, encodeLogEntry e = .fatal m := by
  rcases e with ⟨a, t, d, bn, th, ti, bh, li, rm⟩
  cases bn <;> cases th <;> cases ti <;> cases bh <;> cases li <;> cases rm <;>
    simp [LogEntry.missingField] at h ⊢ <;>
    simp [encodeLogEntry]

/-- A defective entry anywhere in the response makes the whole encoding pass
panic. -/
theorem encodeLogs_missing_fatal :
    ∀ logs : List LogEntry, (∃ e ∈ logs, e.missingField) →
      ∃ m, encodeLogs logs = .fatal m := by
  intro logs
  induction logs with
  | nil =>
      rintro ⟨e, he, -⟩
      cases he
  | cons head rest ih =>
      rintro ⟨e, he, hm⟩
      cases hhead : encodeLogEntry head with
      | fatal m => exact ⟨m, by simp [encodeLogs, hhead]⟩
      | err er => exact absurd hhead (encodeLogEntry_ne_err head er)
      | ok v =>
          rcases List.mem_cons.mp he with rfl | htail
          · rcases encodeLogEntry_missing_fatal e hm with ⟨m, hm2⟩
            rw [hhead] at hm2
            cases hm2
          · rcases ih ⟨e, htail, hm⟩ with ⟨m, hm2⟩
            exact ⟨m, by simp [encodeLogs, hhead, hm2]⟩

/-- C2 counterexample: on a concrete provider response whose one entry lacks
`block_number`, the operation aborts with the forced-unwrap panic — it does
NOT return a typed error (and does not substitute a default), so "returned as
a typed result to the caller, never by any other failure mode" is false at
this input. -/
theorem get_logs_missing_field_counterexample :
    (eth_getlogs wBadLog bOne call0).1 =
      .fatal "eth_getLogs response should include block_number field" ∧
    ((eth_getlogs wBadLog bOne call0).1).isTypedErr = false :=
  ⟨rfl, rfl⟩

/-- C2 amended: if any entry of the provider's `eth_getLogs` response lacks
block number, transaction hash, transaction index, block hash, log index or
the removal flag, the operation fails fatally — a panic aborting the process,
not a value with a substituted default and not a returned typed error. -/
theorem get_logs_missing_field_panics (w : World) (b : Backend)
    (inner : EthGetLogsCall) (url : URL) (logs : List LogEntry)
    (hurl : b.active_fork_url = some url)
    (hfrom : inner.fromBlock ≤ U64_MAX) (hto : inner.toBlock ≤ U64_MAX)
    (htopics : inner.topics.length ≤ 4)
    (hbuild : w.buildOk url = true)
    (hlogs : w.getLogs url (buildFilter inner) = .ok logs)
    (hmiss : ∃ e ∈ logs, e.missingField) :
    ∃ m, (eth_getlogs w b inner).1 = .fatal m := by
  rcases encodeLogs_missing_fatal logs hmiss with ⟨m, hm⟩
  have hne : logs.isEmpty = false := by
    cases logs with
    | nil =>
        rcases hmiss with ⟨e, he, -⟩
        cases he
    | cons x xs => rfl
  have h1 : ¬(inner.fromBlock > U64_MAX ∨ inner.toBlock > U64_MAX) := by
    push_neg
    exact ⟨hfrom, hto⟩
  have h2 : ¬(inner.topics.length > 4) := Nat.not_lt.mpr htopics
  exact ⟨m, by simp [eth_getlogs, hurl, h1, h2, hbuild, hlogs, hne, hm]⟩

/-- C2 amended witness: the panic at the concrete defective response. -/
theorem get_logs_missing_field_panics_witness :
    ∃ m, (eth_getlogs wBadLog bOne call0).1 = .fatal m :=
  get_logs_missing_field_panics wBadLog bOne call0 "https://eth.example" [badLog]
    rfl (by simp [call0, U64_MAX]) (by simp [call0, U64_MAX]) (by simp [call0])
    rfl rfl ⟨badLog, by simp, Or.inl rfl⟩

/-- The resolution loop succeeds on a key list exactly when every key
resolves, and then yields one (alias, url) pair per key in order. -/
theorem collectRpcUrls_ok (cfg : Config) (f : String → String) :
    ∀ l : List String, (∀ a ∈ l, cfg.get_rpc_url a = .ok (f a)) →
      collectRpcUrls cfg l = .ok (l.map fun a => (a, f a)) := by
  intro l
  induction l with
  | nil => intro _; rfl
  | cons a rest ih =>
      intro h
      have ha := h a (List.mem_cons_self a rest)
      have hr := ih fun x hx => h x (List.mem_cons_of_mem a hx)
      simp [collectRpcUrls, ha, hr]

/-- The resolution loop stops at the first failing key and returns its
error. -/
theorem collectRpcUrls_err (cfg : Config) (e0 : Error) :
    ∀ (ks1 : List String) (a0 : String) (ks2 : List String),
      (∀ a ∈ ks1, ∃ u, cfg.get_rpc_url a = .ok u) →
      cfg.get_rpc_url a0 = .error e0 →
      collectRpcUrls cfg (ks1 ++ a0 :: ks2) = .error e0 := by
  intro ks1
  induction ks1 with
  | nil =>
      intro a0 ks2 _ h0
      simp [collectRpcUrls, h0]
  | cons a rest ih =>
      intro a0 ks2 h1 h0
      rcases h1 a (List.mem_cons_self a rest) with ⟨u, hu⟩
      have hr := ih a0 ks2 (fun x hx => h1 x (List.mem_cons_of_mem a hx)) h0
      simp [collectRpcUrls, hu, hr]

/-- C10: `rpcUrls` and `rpcUrlStructs` are all-or-nothing: if every
configured alias resolves they return exactly one (alias, url) pair per
configured endpoint, in configuration order; if any alias fails to resolve,
the whole operation returns the first failure and no partial list. -/
theorem rpc_urls_all_or_nothing (cfg : Config) (f : String → String)
    (ks1 ks2 : List String) (a0 : String) (e0 : Error) :
    ((∀ a ∈ cfg.rpc_endpoints.map Prod.fst, cfg.get_rpc_url a = .ok (f a)) →
       rpcUrls cfg = .ok (.single (.array ((cfg.rpc_endpoints.map Prod.fst).map
           fun a => .fixedArray [.strV a, .strV (f a)]))) ∧
       rpcUrlStructs cfg = .ok (.single (.array ((cfg.rpc_endpoints.map Prod.fst).map
           fun a => .tuple [.strV a, .strV (f a)])))) ∧
    (cfg.rpc_endpoints.map Prod.fst = ks1 ++ a0 :: ks2 →
       (∀ a ∈ ks1, ∃ u, cfg.get_rpc_url a = .ok u) →
       cfg.get_rpc_url a0 = .error e0 →
       rpcUrls cfg = .error e0 ∧ rpcUrlStructs cfg = .error e0) := by
  constructor
  · intro h
    have hc := collectRpcUrls_ok cfg f _ h
    constructor <;> simp [rpcUrls, rpcUrlStructs, hc, List.map_map, Function.comp]
  · intro hkeys h1 h0
    have hc := collectRpcUrls_err cfg e0 ks1 a0 ks2 h1 h0
    rw [← hkeys] at hc
    constructor <;> simp [rpcUrls, rpcUrlStructs, hc]

/-- C10 witness: the fully-resolving config yields the two pairs in order;
the config with the failing alias "broken" yields only that error. -/
theorem rpc_urls_all_or_nothing_witness :
    rpcUrls cfg0 = .ok (.single (.array
      [.fixedArray [.strV "mainnet", .strV "https://eth.example"],
       .fixedArray [.strV "optimism", .strV "https://op.example"]])) ∧
    rpcUrls cfgBad = .error (.configError "broken") := by
  constructor
  · have h := (rpc_urls_all_or_nothing cfg0
        (fun a => if a = "mainnet" then "https://eth.example" else "https://op.example")
        [] [] "" .noActiveFork).1 ?_
    · exact h.1
    · intro a ha
      simp [cfg0] at ha
      rcases ha with rfl | rfl <;> rfl
  · have h := (rpc_urls_all_or_nothing cfgBad (fun _ => "")
        ["mainnet"] [] "broken" (.configError "broken")).2 rfl ?_ rfl
    · exact h.1
    · intro a ha
      simp at ha
      subst ha
      exact ⟨"https://eth.example", rfl⟩

end ForkCheat
